import Mathlib

/-!
# Verification of the Ardour `AudioEngine` core (libs/ardour/ardour/audioengine.h)

A shallow embedding of the engine facade described by the repository's
specification and declared in `audioengine.h`.  The header file is the only
source present; where a member function's body lives in `audioengine.cc`
(absent), the definition below is modelled from the spec and says so in its
doc comment.  Machine integer types (`pframes_t` = uint32_t, `samplecnt_t` =
int64_t, atomic `gint` counters) are modelled as `Nat`: every claim under
study is about counting and state framing, never about wrap-around.

Events published through `PBD::Signal` members are modelled as an explicit
event trace: each operation returns, besides its result and successor state,
the list of events it emits, in emission order.  Calls into collaborators
(the attached session's per-cycle entry point, backend instance construction
and destruction) are recorded in the same trace so that ordering and
occurrence properties can be stated.
-/

namespace Ardour

/-- Latency-measurement state machine, `audioengine.h` lines 242–246. -/
inductive LatencyMeasurement
  | MeasureNone
  | MeasureAudio
  | MeasureMIDI
deriving DecidableEq, Repr

/-- Transport states reported by `transport_state()` (from `ardour/types.h`,
a collaborator header; only the stopped/rolling distinction matters here). -/
inductive TransportState
  | TransportStopped
  | TransportRolling
  | TransportLooping
  | TransportStarting
deriving DecidableEq, Repr

/-- Error taxonomy of the spec (§7): `NoBackendAvailable` is the exception
class declared at `audioengine.h` lines 160–163; the other two conditions are
reported through return codes / null results. -/
inductive EngineError
  | NoBackendAvailable
  | BusyBackendSwap
  | BackendRejected
deriving DecidableEq, Repr

/-- The engine's published events (`PBD::Signal` members, `audioengine.h`
lines 175–207), together with trace markers for collaborator calls:
`SessionProcess n` marks the delegation to the attached session's per-cycle
processing entry point, `BackendCreated`/`BackendDestroyed` mark backend
instance lifecycle (identified by an instance id). -/
inductive Event
  | Freewheel (nframes : Nat)
  | Xrun
  | SampleRateChanged (rate : Nat)
  | BufferSizeChanged (nframes : Nat)
  | DeviceError
  | DeviceListChanged
  | Halted (reason : String)
  | Running (start_cnt : Nat)
  | Stopped
  | DeviceResetStarted
  | DeviceResetFinished
  | SessionProcess (nframes : Nat)
  | BackendCreated (bid : Nat)
  | BackendDestroyed (bid : Nat)
deriving DecidableEq, Repr

/-- A live backend instance (collaborator, spec §6).  `bid` identifies the
instance in the lifecycle trace; `stop_ok` abstracts whether a stop request
to this backend succeeds (the spec's "cannot be cleanly stopped" condition);
the remaining fields are the device configuration the proxy accessors read. -/
structure Backend where
  name : String
  bid : Nat
  stop_ok : Bool
  sample_rate : Nat
  buffer_size : Nat
  dsp_load : Nat
  transport_rolling : Bool
  transport_sample : Nat
deriving DecidableEq, Repr

/-- The engine state: the private data members of `AudioEngine`
(`audioengine.h` lines 263–318) that the claims under study touch, plus the
housekeeping worker's last-acknowledged request count (spec §4.4: the worker
"clears/acks the counter it observed").  `halt_reason` records the reason of
a halt (spec §4.2: `halted_callback` "records the reason string"; none =
no halt recorded). -/
structure AudioEngine where
  backend : Option Backend
  running : Bool
  freewheeling : Bool
  processed_samples : Nat
  start_cnt : Nat
  session : Option Nat
  measuring_latency : LatencyMeasurement
  mtdm : Option Nat
  mididm : Option Nat
  latency_flush_samples : Nat
  latency_signal_latency : Nat
  halt_reason : Option String
  started_for_latency : Bool
  hw_reset_request_count : Nat
  hw_reset_acked : Nat
  pending_playback_latency_callback : Nat
  pending_capture_latency_callback : Nat
  last_backend_error_string : String
deriving DecidableEq, Repr

/-- The freshly created engine (spec §3 lifecycle: created once by `create`). -/
def initEngine : AudioEngine :=
  { backend := none
  , running := false
  , freewheeling := false
  , processed_samples := 0
  , start_cnt := 0
  , session := none
  , measuring_latency := LatencyMeasurement.MeasureNone
  , mtdm := none
  , mididm := none
  , latency_flush_samples := 0
  , latency_signal_latency := 0
  , halt_reason := none
  , started_for_latency := false
  , hw_reset_request_count := 0
  , hw_reset_acked := 0
  , pending_playback_latency_callback := 0
  , pending_capture_latency_callback := 0
  , last_backend_error_string := "" }

/-- Modelled from the spec: `AudioEngine::start(for_latency_measurement)`
(declared `audioengine.h` line 87; body in the absent `audioengine.cc`).
Spec §4.1: "if no backend, fails with NoBackendAvailable. Otherwise requests
backend start; on success sets `running = true`, increments `start_count`,
and publishes a `Running` event carrying the start count"; §3:
`processed_samples` is "reset only on a re-start"; the flag records that the
start is for latency measurement (suppresses normal session processing). -/
def start (e : AudioEngine) (for_latency_measurement : Bool) :
    Except EngineError Unit × AudioEngine × List Event :=
  match e.backend with
  | none => (Except.error EngineError.NoBackendAvailable, e, [])
  | some _ =>
      let e' := { e with running := true
                       , processed_samples := 0
                       , start_cnt := e.start_cnt + 1
                       , halt_reason := none
                       , started_for_latency := for_latency_measurement }
      (Except.ok (), e', [Event.Running e'.start_cnt])

/-- Modelled from the spec: `AudioEngine::freewheel_callback(active)`
(declared `audioengine.h` line 217; body absent).  Spec §4.2: "toggles the
`freewheeling` flag" to the backend-reported value. -/
def freewheel_callback (e : AudioEngine) (active : Bool) : AudioEngine :=
  { e with freewheeling := active }

/-- Modelled from the spec: `AudioEngine::process_callback(nframes)`
(declared `audioengine.h` line 214; body absent).  Spec §4.2: "Advances
`processed_samples` by `n` ... and — unless freewheeling — delegates to the
attached session's per-cycle processing entry point"; while freewheeling "a
`Freewheel` event fires each cycle instead"; §4.3: cycles while measuring
latency feed the detector, and a for-latency start suppresses normal session
processing. -/
def process_callback (e : AudioEngine) (nframes : Nat) : AudioEngine × List Event :=
  let e' := { e with processed_samples := e.processed_samples + nframes }
  if e'.freewheeling then
    (e', [Event.Freewheel nframes])
  else if e'.measuring_latency = LatencyMeasurement.MeasureNone ∧
          e'.started_for_latency = false then
    match e'.session with
    | some _ => (e', [Event.SessionProcess nframes])
    | none => (e', [])
  else
    (e', [])

/-- Modelled from the spec: `AudioEngine::halted_callback(reason)` (declared
`audioengine.h` line 222; body absent).  Spec §4.2: "Sets `running = false`,
records the reason string, publishes `Halted` with that reason, and leaves
the backend instance intact ... Idempotent: a second halt while one is
already recorded is a no-op." -/
def halted_callback (e : AudioEngine) (reason : String) : AudioEngine × List Event :=
  if e.halt_reason.isSome then
    (e, [])
  else
    ({ e with running := false, halt_reason := some reason }, [Event.Halted reason])

/-- Modelled from the spec: `AudioEngine::stop_latency_detection()` (declared
`audioengine.h` line 237; body absent).  Spec §4.3: "aborts mid-measurement,
discarding partial state; safe to call from any state, including
`MeasureNone` (no-op)".  Partial state is the detectors and the accumulated
flush-sample count (spec §3, LatencyState). -/
def stop_latency_detection (e : AudioEngine) : AudioEngine × List Event :=
  if e.measuring_latency = LatencyMeasurement.MeasureNone then
    (e, [])
  else
    ({ e with measuring_latency := LatencyMeasurement.MeasureNone
            , mtdm := none
            , mididm := none
            , latency_flush_samples := 0 }, [])

/-- Modelled from the spec: `AudioEngine::latency_callback(for_playback)`
(declared `audioengine.h` line 221; body absent; the two counters are the
members `_pending_playback_latency_callback` and
`_pending_capture_latency_callback`, lines 312–313).  Spec §4.2: "increments
the corresponding `PendingLatencyCallbacks` counter (no further work on the
real-time thread) and returns immediately." -/
def latency_callback (e : AudioEngine) (for_playback : Bool) : AudioEngine :=
  if for_playback then
    { e with pending_playback_latency_callback :=
               e.pending_playback_latency_callback + 1 }
  else
    { e with pending_capture_latency_callback :=
               e.pending_capture_latency_callback + 1 }

/-- Modelled from the spec: `AudioEngine::update_latencies()` (declared
`audioengine.h` line 169; body absent).  Spec §4.2/§3: the pending
latency-callback counters are "drained asynchronously by
`update_latencies()`" outside the real-time path. -/
def update_latencies (e : AudioEngine) : AudioEngine :=
  { e with pending_playback_latency_callback := 0
         , pending_capture_latency_callback := 0 }

/-- Modelled from the spec: `AudioEngine::request_backend_reset()` (declared
`audioengine.h` line 124; body absent; the counter is the member
`_hw_reset_request_count`, line 301).  Spec §4.4: "increment the relevant
atomic request counter and signal the worker's condition variable; callable
from any thread, non-blocking". -/
def request_backend_reset (e : AudioEngine) : AudioEngine :=
  { e with hw_reset_request_count := e.hw_reset_request_count + 1 }

/-- `m` consecutive `request_backend_reset` calls. -/
def requestN (e : AudioEngine) : Nat → AudioEngine
  | 0 => e
  | m + 1 => requestN (request_backend_reset e) m

/-- Modelled from the spec: one wake of the hardware-reset housekeeping
worker (the loop body of `do_reset_backend`, declared `audioengine.h` line
317; body absent).  Spec §4.4: the worker "blocks ... until the request
counter changes"; "on wake, performs the device-level action ..., then
clears/acks the counter it observed"; `DeviceResetStarted` /
`DeviceResetFinished` "are published around the corresponding handling
pass"; requests issued before it wakes are coalesced into one pass. -/
def hw_reset_worker_wake (e : AudioEngine) : AudioEngine × List Event :=
  let observed := e.hw_reset_request_count
  if e.hw_reset_acked < observed then
    ({ e with hw_reset_acked := observed },
     [Event.DeviceResetStarted, Event.DeviceResetFinished])
  else
    (e, [])

/-- Modelled from the spec: `AudioEngine::set_buffer_size(uint32_t)`
(declared `audioengine.h` line 135; body absent).  Spec §4.1: proxy
operations "forward to the active backend; each fails with 'no backend' if
none is set, and otherwise returns the backend's own success/error code
unchanged" (0 = success, the new size being stored in the backend). -/
def set_buffer_size (e : AudioEngine) (samples : Nat) : Int × AudioEngine :=
  match e.backend with
  | none => (-1, e)
  | some b => (0, { e with backend := some { b with buffer_size := samples } })

/-- `AudioEngine::request_buffer_size`, transcribed from its inline body at
`audioengine.h` lines 150–152: `return set_buffer_size (samples);`. -/
def request_buffer_size (e : AudioEngine) (samples : Nat) : Int × AudioEngine :=
  set_buffer_size e samples

/-- Modelled from the spec: `AudioEngine::sample_rate()` (declared
`audioengine.h` line 96; body absent).  Spec §4.1: query accessors "are
pass-through reads with no side effects, returning a sentinel/zero value
when no backend is attached".  The unchanged state is returned alongside the
value to make the absence of side effects statable. -/
def sample_rate (e : AudioEngine) : Nat × AudioEngine :=
  match e.backend with
  | none => (0, e)
  | some b => (b.sample_rate, e)

/-- Modelled from the spec: `AudioEngine::samples_per_cycle()` (declared
`audioengine.h` line 97; body absent): pass-through read of the backend's
cycle buffer size, zero when no backend is attached. -/
def samples_per_cycle (e : AudioEngine) : Nat × AudioEngine :=
  match e.backend with
  | none => (0, e)
  | some b => (b.buffer_size, e)

/-- Modelled from the spec: `AudioEngine::get_dsp_load()` (declared
`audioengine.h` line 90; body absent): pass-through read of the backend's
DSP load, zero when no backend is attached (the C++ float is modelled as a
Nat; only zero-ness and framing matter to the claims). -/
def get_dsp_load (e : AudioEngine) : Nat × AudioEngine :=
  match e.backend with
  | none => (0, e)
  | some b => (b.dsp_load, e)

/-- Modelled from the spec: `AudioEngine::transport_state()` (declared
`audioengine.h` line 93; body absent): pass-through read of the backend's
transport state, the stopped sentinel when no backend is attached. -/
def transport_state (e : AudioEngine) : TransportState × AudioEngine :=
  match e.backend with
  | none => (TransportState.TransportStopped, e)
  | some b =>
      (if b.transport_rolling then TransportState.TransportRolling
       else TransportState.TransportStopped, e)

/-- Modelled from the spec: `AudioEngine::transport_sample()` (declared
`audioengine.h` line 95; body absent): pass-through read of the backend's
transport position, zero when no backend is attached. -/
def transport_sample (e : AudioEngine) : Nat × AudioEngine :=
  match e.backend with
  | none => (0, e)
  | some b => (b.transport_sample, e)

/-- Modelled from the spec: `AudioEngine::transport_start()` (declared
`audioengine.h` line 91; body absent).  Spec §4.1 (proxy operations forward
to the active backend, guarded by a null-backend check) and the spec's
end-to-end scenario 3: "with no backend set, call `transport_start()` →
returns without touching transport state". -/
def transport_start (e : AudioEngine) : AudioEngine :=
  match e.backend with
  | none => e
  | some b => { e with backend := some { b with transport_rolling := true } }

/-- Modelled from the spec: `AudioEngine::set_backend(name, arg1, arg2)`
(declared `audioengine.h` lines 75–76; body absent, as are `drop_backend`,
line 323, and the registry lookup).  Spec §4.1: "tears down any existing
backend (stopping it first if running), instantiates the new one via its
descriptor with the two free-form configuration arguments, and returns the
new backend handle or a null/empty result on failure ... attempting to set
a backend while one is already running and cannot be cleanly stopped fails
with a 'backend busy' condition rather than silently killing the old one."
The registry's descriptor factory is abstracted as `factory`. -/
def set_backend (factory : String → String → String → Option Backend)
    (e : AudioEngine) (name arg1 arg2 : String) :
    Except EngineError Backend × AudioEngine × List Event :=
  match e.backend with
  | some b =>
      if e.running = true ∧ b.stop_ok = false then
        (Except.error EngineError.BusyBackendSwap, e, [])
      else
        let stopEvs := if e.running then [Event.Stopped] else []
        let e1 := { e with backend := none, running := false }
        match factory name arg1 arg2 with
        | some nb =>
            (Except.ok nb, { e1 with backend := some nb },
             stopEvs ++ [Event.BackendDestroyed b.bid, Event.BackendCreated nb.bid])
        | none =>
            (Except.error EngineError.BackendRejected, e1,
             stopEvs ++ [Event.BackendDestroyed b.bid])
  | none =>
      match factory name arg1 arg2 with
      | some nb =>
          (Except.ok nb, { e with backend := some nb },
           [Event.BackendCreated nb.bid])
      | none =>
          (Except.error EngineError.BackendRejected, e, [])

/-- Number of live backend instances held by the engine state (zero or one,
by the shape of the `backend` slot). -/
def backendCount (e : AudioEngine) : Nat :=
  match e.backend with
  | none => 0
  | some _ => 1

/-- Effect of one trace event on the number of live backend instances:
`BackendCreated` increments it, `BackendDestroyed` decrements it, every
other event leaves it unchanged. -/
def liveStep (live : Nat) : Event → Nat
  | Event.BackendCreated _ => live + 1
  | Event.BackendDestroyed _ => live - 1
  | _ => live

/-- Number of live backend instances after an event trace, starting from
`init` live instances. -/
def liveAfter (init : Nat) : List Event → Nat
  | [] => init
  | ev :: rest => liveAfter (liveStep init ev) rest

/-- Largest number of live backend instances reached at any point of an
event trace (maximum of `liveAfter init` over all prefixes of the trace). -/
def maxLive (init : Nat) : List Event → Nat
  | [] => init
  | ev :: rest => max init (maxLive (liveStep init ev) rest)

/-- Interleavings of real-time cycles and freewheel toggles, for stating the
`processed_samples` accumulation property. -/
inductive CycleAction
  | process (nframes : Nat)
  | setFreewheel (active : Bool)
deriving DecidableEq, Repr

/-- One cycle action: a backend-driven `process_callback` cycle or a
`freewheel_callback` toggle (which emits no event of its own). -/
def cycle_step (e : AudioEngine) : CycleAction → AudioEngine × List Event
  | CycleAction.process n => process_callback e n
  | CycleAction.setFreewheel b => (freewheel_callback e b, [])

/-- Run a list of cycle actions, accumulating the emitted events. -/
def run_cycles (e : AudioEngine) : List CycleAction → AudioEngine × List Event
  | [] => (e, [])
  | a :: rest =>
      ((run_cycles (cycle_step e a).1 rest).1,
       (cycle_step e a).2 ++ (run_cycles (cycle_step e a).1 rest).2)

/-- Total frame count of the `process` actions in a cycle-action list. -/
def processedTotal : List CycleAction → Nat
  | [] => 0
  | CycleAction.process n :: rest => n + processedTotal rest
  | CycleAction.setFreewheel _ :: rest => processedTotal rest

/-- A concrete backend instance (the "null" backend of the spec's
end-to-end scenario 1: 48000 Hz, 256-frame buffer), used by witnesses. -/
def nullBackend : Backend :=
  { name := "null", bid := 0, stop_ok := true, sample_rate := 48000,
    buffer_size := 256, dsp_load := 0, transport_rolling := false,
    transport_sample := 0 }

/-- A concrete engine state holding the null backend, used by witnesses. -/
def engineWithBackend : AudioEngine :=
  { initEngine with backend := some nullBackend }

/-- A concrete interleaving of three 256-frame cycles with freewheel
toggled on and back off in between, used by witnesses. -/
def demoActs : List CycleAction :=
  [CycleAction.process 256, CycleAction.setFreewheel true,
   CycleAction.process 256, CycleAction.setFreewheel false,
   CycleAction.process 256]

/-- A concrete prior backend that cannot be cleanly stopped, used by the
backend-swap witness. -/
def busyBackend : Backend :=
  { name := "alsa", bid := 7, stop_ok := false, sample_rate := 44100,
    buffer_size := 512, dsp_load := 3, transport_rolling := false,
    transport_sample := 0 }

/-- A concrete prior backend that stops cleanly, used by the backend-swap
witness. -/
def okBackend : Backend :=
  { busyBackend with stop_ok := true }

/-- A running engine holding the non-stoppable prior backend. -/
def busyEngine : AudioEngine :=
  { initEngine with backend := some busyBackend, running := true }

/-- A running engine holding the cleanly stoppable prior backend. -/
def okEngine : AudioEngine :=
  { initEngine with backend := some okBackend, running := true }

/-- A concrete backend descriptor factory: knows only the "null" backend. -/
def demoFactory : String → String → String → Option Backend :=
  fun name _ _ => if name = "null" then some nullBackend else none

/-! ## Helper lemmas (shared) -/

/-- `process_callback` leaves the state unchanged except for advancing
`processed_samples`, whichever branch (freewheeling, measuring, session or
no session) is taken. -/
theorem process_callback_fst (e : AudioEngine) (n : Nat) :
    (process_callback e n).1 =
      { e with processed_samples := e.processed_samples + n } := by
  unfold process_callback
  simp only []
  split
  · rfl
  · split
    · split <;> rfl
    · rfl

/-- `requestN` adds `m` to the request counter. -/
theorem requestN_count (e : AudioEngine) (m : Nat) :
    (requestN e m).hw_reset_request_count = e.hw_reset_request_count + m := by
  induction m generalizing e with
  | zero => rfl
  | succ k ih =>
      show (requestN (request_backend_reset e) k).hw_reset_request_count = _
      rw [ih]
      simp [request_backend_reset]
      omega

/-- `requestN` does not touch the worker's acknowledged count. -/
theorem requestN_acked (e : AudioEngine) (m : Nat) :
    (requestN e m).hw_reset_acked = e.hw_reset_acked := by
  induction m generalizing e with
  | zero => rfl
  | succ k ih =>
      show (requestN (request_backend_reset e) k).hw_reset_acked = _
      rw [ih]
      rfl

/-- The live-instance count after any prefix of a trace is bounded by the
trace's `maxLive`. -/
theorem liveAfter_take_le_maxLive (l : List Event) (init k : Nat) :
    liveAfter init (l.take k) ≤ maxLive init l := by
  induction l generalizing init k with
  | nil =>
      simp [List.take_nil, liveAfter, maxLive]
  | cons a rest ih =>
      cases k with
      | zero =>
          simp [liveAfter, maxLive]
      | succ k' =>
          simp only [List.take_succ_cons, liveAfter, maxLive]
          exact le_trans (ih (liveStep init a) k') (le_max_right _ _)

/-- The state reached by one cycle action, explicitly. -/
theorem cycle_step_processed (e : AudioEngine) (a : CycleAction) :
    (cycle_step e a).1.processed_samples =
      e.processed_samples + processedTotal [a] := by
  cases a with
  | process n =>
      show (process_callback e n).1.processed_samples = _
      rw [process_callback_fst]
      simp [processedTotal]
  | setFreewheel b =>
      simp [cycle_step, freewheel_callback, processedTotal]

/-- Over any interleaving of cycles and freewheel toggles,
`processed_samples` advances by exactly the total processed frame count. -/
theorem run_cycles_processed (e : AudioEngine) (acts : List CycleAction) :
    (run_cycles e acts).1.processed_samples =
      e.processed_samples + processedTotal acts := by
  induction acts generalizing e with
  | nil => simp [run_cycles, processedTotal]
  | cons a rest ih =>
      show (run_cycles (cycle_step e a).1 rest).1.processed_samples = _
      rw [ih, cycle_step_processed]
      cases a with
      | process n =>
          simp [processedTotal]
          omega
      | setFreewheel b =>
          simp [processedTotal]

/-! ## Claims -/

/-- C1: for every engine state in which no backend is set, `start` (with
either value of the `for_latency_measurement` flag) fails with the
`NoBackendAvailable` error, leaves the whole state — in particular the
`running` flag — unchanged, and publishes no event. -/
theorem start_no_backend_fails (e : AudioEngine) (flag : Bool)
    (h : e.backend = none) :
    start e flag = (Except.error EngineError.NoBackendAvailable, e, []) ∧
    (start e flag).2.1.running = e.running := by
  constructor
  · unfold start
    rw [h]
  · unfold start
    rw [h]

/-- Witness for C1 at the freshly created engine. -/
theorem start_no_backend_fails_witness :
    start initEngine true =
      (Except.error EngineError.NoBackendAvailable, initEngine, []) ∧
    (start initEngine true).2.1.running = initEngine.running :=
  ⟨(start_no_backend_fails initEngine true rfl).1,
   (start_no_backend_fails initEngine true rfl).2⟩

/-- C2: after any interleaving of `process_callback(k_i)` cycles and
freewheel toggles, `processed_samples` equals its starting value plus the
sum of the `k_i` (freewheel toggles do not disturb the counter), and a
re-`start` (with a backend present) resets `processed_samples` to zero. -/
theorem processed_samples_accumulates (e : AudioEngine)
    (acts : List CycleAction) (flag : Bool) :
    (run_cycles e acts).1.processed_samples =
      e.processed_samples + processedTotal acts ∧
    (e.backend ≠ none → (start e flag).2.1.processed_samples = 0) := by
  constructor
  · exact run_cycles_processed e acts
  · intro h
    unfold start
    cases hb : e.backend with
    | none => exact absurd hb h
    | some b => rfl

/-- Witness for C2: three cycles of 256 frames with a freewheel toggle
on/off in between accumulate 768 samples, and a start on an engine with a
backend resets the counter. -/
theorem processed_samples_accumulates_witness :
    processedTotal demoActs = 768 ∧
    (run_cycles engineWithBackend demoActs).1.processed_samples =
      engineWithBackend.processed_samples + processedTotal demoActs ∧
    (start engineWithBackend false).2.1.processed_samples = 0 :=
  ⟨by decide,
   (processed_samples_accumulates engineWithBackend demoActs false).1,
   (processed_samples_accumulates engineWithBackend demoActs false).2
     (by decide)⟩

/-- C4: from a state with no halt recorded, `halted_callback(reason)` sets
`running` to false, records the reason, publishes `Halted` with that reason
exactly once, and leaves the backend instance intact; an immediately
following second `halted_callback` changes nothing and fires nothing, so of
any pair of consecutive calls only the first fires `Halted`. -/
theorem halted_callback_idempotent (e : AudioEngine) (r1 r2 : String)
    (h : e.halt_reason = none) :
    (halted_callback e r1).2 = [Event.Halted r1] ∧
    (halted_callback e r1).1.running = false ∧
    (halted_callback e r1).1.halt_reason = some r1 ∧
    (halted_callback e r1).1.backend = e.backend ∧
    halted_callback (halted_callback e r1).1 r2 = ((halted_callback e r1).1, []) := by
  simp [halted_callback, h]

/-- Witness for C4: two consecutive halts on the running null-backend
engine fire `Halted` only once. -/
theorem halted_callback_idempotent_witness :
    (halted_callback engineWithBackend "device lost").2 =
      [Event.Halted "device lost"] ∧
    (halted_callback engineWithBackend "device lost").1.running = false ∧
    (halted_callback engineWithBackend "device lost").1.halt_reason =
      some "device lost" ∧
    (halted_callback engineWithBackend "device lost").1.backend =
      engineWithBackend.backend ∧
    halted_callback (halted_callback engineWithBackend "device lost").1
        "device lost again" =
      ((halted_callback engineWithBackend "device lost").1, []) :=
  halted_callback_idempotent engineWithBackend "device lost"
    "device lost again" rfl

/-- C5: `stop_latency_detection` is safe from every latency-measurement
state: when `measuring_latency` is already `MeasureNone` it changes no
engine state and fires no event, and from any state it fires no event,
discards the partial measurement and leaves `measuring_latency` at
`MeasureNone`. -/
theorem stop_latency_detection_safe (e : AudioEngine) :
    (e.measuring_latency = LatencyMeasurement.MeasureNone →
       stop_latency_detection e = (e, [])) ∧
    (e.measuring_latency ≠ LatencyMeasurement.MeasureNone →
       (stop_latency_detection e).1.mtdm = none ∧
       (stop_latency_detection e).1.mididm = none ∧
       (stop_latency_detection e).1.latency_flush_samples = 0) ∧
    (stop_latency_detection e).1.measuring_latency =
      LatencyMeasurement.MeasureNone ∧
    (stop_latency_detection e).2 = [] := by
  by_cases h : e.measuring_latency = LatencyMeasurement.MeasureNone <;>
    simp [stop_latency_detection, h]

/-- Witness for C5: on the fresh engine (already `MeasureNone`) the call is
a strict no-op. -/
theorem stop_latency_detection_safe_witness :
    stop_latency_detection initEngine = (initEngine, []) ∧
    (stop_latency_detection initEngine).1.measuring_latency =
      LatencyMeasurement.MeasureNone :=
  ⟨(stop_latency_detection_safe initEngine).1 rfl,
   (stop_latency_detection_safe initEngine).2.2.1⟩

/-- C7: `freewheel_callback(active)` sets the `freewheeling` flag to the
given value, and every subsequent `process_callback(n)` while freewheeling
is active bypasses the attached session's per-cycle processing entry point
and fires `Freewheel` carrying that cycle's frame count `n` instead. -/
theorem freewheel_bypasses_session (e : AudioEngine) (n : Nat) (b : Bool) :
    (freewheel_callback e b).freewheeling = b ∧
    (process_callback (freewheel_callback e true) n).2 = [Event.Freewheel n] ∧
    (∀ m : Nat,
       Event.SessionProcess m ∉
         (process_callback (freewheel_callback e true) n).2) := by
  refine ⟨rfl, ?_, ?_⟩
  · simp [process_callback, freewheel_callback]
  · intro m
    simp [process_callback, freewheel_callback]

/-- C9: `latency_callback(for_playback)` increments exactly the pending
counter selected by the flag (playback when true, capture when false) and
changes nothing else in the engine state; both counters are cleared again
by `update_latencies`, which drains them outside the real-time path. -/
theorem latency_callback_increments (e : AudioEngine) (fp : Bool) :
    (latency_callback e fp).pending_playback_latency_callback =
      (if fp then e.pending_playback_latency_callback + 1
       else e.pending_playback_latency_callback) ∧
    (latency_callback e fp).pending_capture_latency_callback =
      (if fp then e.pending_capture_latency_callback
       else e.pending_capture_latency_callback + 1) ∧
    (latency_callback e fp).backend = e.backend ∧
    (latency_callback e fp).running = e.running ∧
    (latency_callback e fp).freewheeling = e.freewheeling ∧
    (latency_callback e fp).processed_samples = e.processed_samples ∧
    (latency_callback e fp).start_cnt = e.start_cnt ∧
    (latency_callback e fp).session = e.session ∧
    (latency_callback e fp).measuring_latency = e.measuring_latency ∧
    (latency_callback e fp).mtdm = e.mtdm ∧
    (latency_callback e fp).mididm = e.mididm ∧
    (latency_callback e fp).latency_flush_samples = e.latency_flush_samples ∧
    (latency_callback e fp).latency_signal_latency = e.latency_signal_latency ∧
    (latency_callback e fp).halt_reason = e.halt_reason ∧
    (latency_callback e fp).started_for_latency = e.started_for_latency ∧
    (latency_callback e fp).hw_reset_request_count = e.hw_reset_request_count ∧
    (latency_callback e fp).hw_reset_acked = e.hw_reset_acked ∧
    (latency_callback e fp).last_backend_error_string =
      e.last_backend_error_string ∧
    (update_latencies e).pending_playback_latency_callback = 0 ∧
    (update_latencies e).pending_capture_latency_callback = 0 := by
  cases fp <;> simp [latency_callback, update_latencies]

/-- C10: `request_buffer_size(n)` is exactly `set_buffer_size(n)`: the
inline body at audioengine.h lines 150–152 forwards the argument unchanged
and returns `set_buffer_size`'s result, with no additional state change. -/
theorem request_buffer_size_eq_set_buffer_size (e : AudioEngine) (n : Nat) :
    request_buffer_size e n = set_buffer_size e n := rfl

/-- C6: from a quiescent state (worker has acknowledged every request),
issuing `request_backend_reset` M ≥ 1 times before the housekeeping worker
wakes results in exactly one reset handling pass on the next wake, during
which `DeviceResetStarted` and `DeviceResetFinished` each fire exactly
once; an immediately following wake processes nothing (the worker never
processes the same request twice); each request leaves the counter
non-decreasing and the wake leaves the counter itself untouched, so the
value the worker observes is monotonic non-decreasing. -/
theorem backend_reset_coalesced (e : AudioEngine) (M : Nat)
    (hM : 1 ≤ M) (hq : e.hw_reset_acked = e.hw_reset_request_count) :
    (hw_reset_worker_wake (requestN e M)).2.count Event.DeviceResetStarted = 1 ∧
    (hw_reset_worker_wake (requestN e M)).2.count Event.DeviceResetFinished = 1 ∧
    hw_reset_worker_wake (hw_reset_worker_wake (requestN e M)).1 =
      ((hw_reset_worker_wake (requestN e M)).1, []) ∧
    (hw_reset_worker_wake (requestN e M)).1.hw_reset_request_count =
      (requestN e M).hw_reset_request_count ∧
    (∀ m : Nat, (requestN e m).hw_reset_request_count ≤
       (requestN e (m + 1)).hw_reset_request_count) := by
  have h1 := requestN_count e M
  have h2 := requestN_acked e M
  have hlt : (requestN e M).hw_reset_acked <
      (requestN e M).hw_reset_request_count := by
    rw [h1, h2, hq]
    omega
  have hwake : hw_reset_worker_wake (requestN e M) =
      ({ requestN e M with
           hw_reset_acked := (requestN e M).hw_reset_request_count },
       [Event.DeviceResetStarted, Event.DeviceResetFinished]) := by
    unfold hw_reset_worker_wake
    simp only []
    rw [if_pos hlt]
  refine ⟨?_, ?_, ?_, ?_, ?_⟩
  · rw [hwake]
    rfl
  · rw [hwake]
    rfl
  · rw [hwake]
    unfold hw_reset_worker_wake
    simp only []
    rw [if_neg (lt_irrefl _)]
  · rw [hwake]
  · intro m
    rw [requestN_count, requestN_count]
    omega

/-- Witness for C6: three requests on the fresh engine are coalesced into
one pass by the next worker wake. -/
theorem backend_reset_coalesced_witness :
    (hw_reset_worker_wake (requestN initEngine 3)).2.count
      Event.DeviceResetStarted = 1 ∧
    (hw_reset_worker_wake (requestN initEngine 3)).2.count
      Event.DeviceResetFinished = 1 ∧
    hw_reset_worker_wake (hw_reset_worker_wake (requestN initEngine 3)).1 =
      ((hw_reset_worker_wake (requestN initEngine 3)).1, []) ∧
    (hw_reset_worker_wake (requestN initEngine 3)).1.hw_reset_request_count =
      (requestN initEngine 3).hw_reset_request_count ∧
    (∀ m : Nat, (requestN initEngine m).hw_reset_request_count ≤
       (requestN initEngine (m + 1)).hw_reset_request_count) :=
  backend_reset_coalesced initEngine 3 (by decide) rfl

/-- C8: the query accessors (`sample_rate`, `samples_per_cycle`,
`get_dsp_load`, `transport_state`, `transport_sample`) leave the engine
state unchanged in every state, and when no backend is attached they return
their sentinel/zero value; `transport_start` with no backend returns with
the state — in particular the transport — untouched. -/
theorem query_accessors_pure (e : AudioEngine) :
    (sample_rate e).2 = e ∧
    (samples_per_cycle e).2 = e ∧
    (get_dsp_load e).2 = e ∧
    (transport_state e).2 = e ∧
    (transport_sample e).2 = e ∧
    (e.backend = none →
       (sample_rate e).1 = 0 ∧
       (samples_per_cycle e).1 = 0 ∧
       (get_dsp_load e).1 = 0 ∧
       (transport_state e).1 = TransportState.TransportStopped ∧
       (transport_sample e).1 = 0 ∧
       transport_start e = e) := by
  cases h : e.backend <;>
    simp [sample_rate, samples_per_cycle, get_dsp_load, transport_state,
          transport_sample, transport_start, h]

/-- Witness for C8 at the fresh (backend-less) engine. -/
theorem query_accessors_pure_witness :
    (sample_rate initEngine).2 = initEngine ∧
    (sample_rate initEngine).1 = 0 ∧
    (samples_per_cycle initEngine).1 = 0 ∧
    (get_dsp_load initEngine).1 = 0 ∧
    (transport_state initEngine).1 = TransportState.TransportStopped ∧
    (transport_sample initEngine).1 = 0 ∧
    transport_start initEngine = initEngine :=
  ⟨(query_accessors_pure initEngine).1,
   ((query_accessors_pure initEngine).2.2.2.2.2 rfl).1,
   ((query_accessors_pure initEngine).2.2.2.2.2 rfl).2.1,
   ((query_accessors_pure initEngine).2.2.2.2.2 rfl).2.2.1,
   ((query_accessors_pure initEngine).2.2.2.2.2 rfl).2.2.2.1,
   ((query_accessors_pure initEngine).2.2.2.2.2 rfl).2.2.2.2.1,
   ((query_accessors_pure initEngine).2.2.2.2.2 rfl).2.2.2.2.2⟩

/-- C3: `set_backend` keeps at most one backend instance live at any time:
if the existing backend is running and cannot be cleanly stopped the call
fails with the backend-busy condition and the prior backend (indeed the
whole state) remains untouched; otherwise the emitted lifecycle trace
destroys the prior instance strictly before creating the new one, so after
every prefix of the trace at most one instance is live, and the resulting
state again holds at most one instance. -/
theorem set_backend_single_live
    (factory : String → String → String → Option Backend)
    (e : AudioEngine) (name arg1 arg2 : String) :
    (∀ b : Backend, e.backend = some b → e.running = true →
       b.stop_ok = false →
       set_backend factory e name arg1 arg2 =
         (Except.error EngineError.BusyBackendSwap, e, [])) ∧
    (∀ k : Nat,
       liveAfter (backendCount e)
         ((set_backend factory e name arg1 arg2).2.2.take k) ≤ 1) ∧
    (∀ b : Backend, ∀ i k : Nat, e.backend = some b →
       Event.BackendCreated i ∈
         (set_backend factory e name arg1 arg2).2.2.take k →
       Event.BackendDestroyed b.bid ∈
         (set_backend factory e name arg1 arg2).2.2.take k) ∧
    backendCount (set_backend factory e name arg1 arg2).2.1 ≤ 1 := by
  refine ⟨?_, ?_, ?_, ?_⟩
  · intro b hb hr hs
    simp [set_backend, hb, hr, hs]
  · intro k
    refine le_trans (liveAfter_take_le_maxLive _ _ _) ?_
    cases hb : e.backend with
    | none =>
        cases hf : factory name arg1 arg2 <;>
          simp [set_backend, hb, hf, backendCount, maxLive, liveStep]
    | some b =>
        cases hr : e.running with
        | false =>
            cases hf : factory name arg1 arg2 <;>
              simp [set_backend, hb, hf, hr, backendCount, maxLive, liveStep]
        | true =>
            cases hs : b.stop_ok with
            | false =>
                simp [set_backend, hb, hr, hs, backendCount, maxLive]
            | true =>
                cases hf : factory name arg1 arg2 <;>
                  simp [set_backend, hb, hf, hr, hs, backendCount, maxLive,
                        liveStep]
  · intro b i k hb hmem
    cases hr : e.running with
    | false =>
        cases hf : factory name arg1 arg2 with
        | none =>
            have hmem' := List.mem_of_mem_take hmem
            simp [set_backend, hb, hf, hr] at hmem'
        | some nb =>
            simp only [set_backend, hb, hf, hr] at hmem ⊢
            rcases k with _ | _ | k <;> simp_all [List.take]
    | true =>
        cases hs : b.stop_ok with
        | false =>
            have hmem' := List.mem_of_mem_take hmem
            simp [set_backend, hb, hr, hs] at hmem'
        | true =>
            cases hf : factory name arg1 arg2 with
            | none =>
                have hmem' := List.mem_of_mem_take hmem
                simp [set_backend, hb, hf, hr, hs] at hmem'
            | some nb =>
                simp only [set_backend, hb, hf, hr, hs] at hmem ⊢
                rcases k with _ | _ | _ | k <;> simp_all [List.take]
  · cases hb : e.backend with
    | none =>
        cases hf : factory name arg1 arg2 <;>
          simp [set_backend, hb, hf, backendCount]
    | some b =>
        cases hr : e.running with
        | false =>
            cases hf : factory name arg1 arg2 <;>
              simp [set_backend, hb, hf, hr, backendCount]
        | true =>
            cases hs : b.stop_ok with
            | false =>
                simp [set_backend, hb, hr, hs, backendCount]
            | true =>
                cases hf : factory name arg1 arg2 <;>
                  simp [set_backend, hb, hf, hr, hs, backendCount]

/-- Witness for C3: swapping to the "null" backend while the non-stoppable
prior backend is running fails busy and keeps the prior backend; swapping
from the stoppable one destroys it (trace position 2) before creating the
new one (position 3), with at most one instance live after every prefix. -/
theorem set_backend_single_live_witness :
    set_backend demoFactory busyEngine "null" "a" "b" =
      (Except.error EngineError.BusyBackendSwap, busyEngine, []) ∧
    liveAfter (backendCount okEngine)
      ((set_backend demoFactory okEngine "null" "a" "b").2.2.take 2) ≤ 1 ∧
    Event.BackendDestroyed okBackend.bid ∈
      (set_backend demoFactory okEngine "null" "a" "b").2.2.take 3 ∧
    backendCount (set_backend demoFactory okEngine "null" "a" "b").2.1 ≤ 1 :=
  ⟨(set_backend_single_live demoFactory busyEngine "null" "a" "b").1
     busyBackend rfl rfl rfl,
   (set_backend_single_live demoFactory okEngine "null" "a" "b").2.1 2,
   (set_backend_single_live demoFactory okEngine "null" "a" "b").2.2.1
     okBackend 0 3 rfl (by decide),
   (set_backend_single_live demoFactory okEngine "null" "a" "b").2.2.2⟩

end Ardour
